import Mathlib

/-!
Verification of the notcurses binding layer (`NcDirect` / `NcPlane` methods):
a shallow embedding of the binding's sentinel-to-typed-error mappings, the
plane-options builder, the render/rasterize composition, and spec-modelled
native-side semantics for erase-region, mergedown and reparent.
-/

namespace NotcursesSpec

/-- The sentinel error code `NCRESULT_ERR`.
Modelled from the spec: the crate-level constant is outside `src/`; the spec's
sentinel-error convention and the claims give its value as -1. -/
def NCRESULT_ERR : Int := -1

/-- The typed error produced at the binding boundary (`NcError`): the raw
sentinel code and a diagnostic message. -/
structure NcError where
  int : Int
  msg : String
deriving DecidableEq, Repr

/-- `NcError::with_msg(int, msg)`. -/
def NcError.with_msg (i : Int) (m : String) : NcError :=
  { int := i, msg := m }

/-- `NcError::new()`: the default error, carrying `NCRESULT_ERR`. -/
def NcError.new : NcError :=
  { int := NCRESULT_ERR, msg := "" }

/-- `NcResult<T>`: success value or typed error. -/
abbrev NcResult (α : Type) : Type := Except NcError α

/-- Whether a binding result is a success value. -/
def isOk {α : Type} : NcResult α → Bool
  | Except.ok _ => true
  | Except.error _ => false

/-- Modelled from the spec: the crate's `error!` macro (defined outside `src/`)
maps a raw native integer result to `Ok(())` when it is non-negative and to a
typed error carrying the raw code when it is negative ("negative or sentinel
values denote failure"). -/
def errorMap (res : Int) (m : String) : NcResult Unit :=
  if 0 ≤ res then Except.ok () else Except.error (NcError.with_msg res m)

/-- Modelled from the spec: the crate's `error_ref_mut!` macro (defined outside
`src/`) maps a raw native pointer result to `Ok(&mut *ptr)` when it is
non-null and to a typed error when it is null ("null-pointer-means-failure"). -/
def errorRefMut {α : Type} (res : Option α) (m : String) : NcResult α :=
  match res with
  | some a => Except.ok a
  | none => Except.error (NcError.with_msg NCRESULT_ERR m)

/-- Reinterpretation of a `u32` bit pattern as an `i32` (Rust `as i32`). -/
def u32_as_i32 (n : Nat) : Int :=
  if n < 2 ^ 31 then (n : Int) else (n : Int) - 2 ^ 32

/-- Whether a code point is a valid Unicode scalar value (the safety
precondition of Rust's `char::from_u32_unchecked`). -/
def isUnicodeScalar (n : Nat) : Bool :=
  decide (n < 0x110000) && !(decide (0xD800 ≤ n) && decide (n ≤ 0xDFFF))

/-- `NcDirect::palette_size`, as a function of the raw `u32` returned by the
native `ncdirect_palette_size` call: raw 1 is surfaced as a "no color support"
error, any other raw count is returned unchanged. -/
def NcDirect.palette_size (res : Nat) : NcResult Nat :=
  if res = 1 then
    Except.error (NcError.with_msg 1 "No color support - NcDirect.palette_size()")
  else
    Except.ok res

/-- `NcDirect::check_pixel_support`, as a function of the raw `i32` returned by
the native call: 0 means unsupported, 1 means supported, everything else
(including `NCRESULT_ERR`, matched by the wildcard arm) is an error. -/
def NcDirect.check_pixel_support (res : Int) : NcResult Bool :=
  if res = 0 then Except.ok false
  else if res = 1 then Except.ok true
  else Except.error (NcError.with_msg res "NcDirect.check_pixel_support()")

/-- `NcDirect::getc`, as a function of the raw `u32` returned by the native
`ncdirect_getc` call. The source converts the raw value with
`char::from_u32_unchecked` (no validity check; we track the code point), then
errors exactly when the value reinterpreted as `i32` equals `NCRESULT_ERR`. -/
def NcDirect.getc (raw : Nat) : NcResult Nat :=
  if u32_as_i32 raw = NCRESULT_ERR then Except.error NcError.new
  else Except.ok raw

/-- C3: `NcDirect::palette_size` errors exactly on raw 1 and otherwise returns
the raw count unchanged (e.g. raw 256 yields `Ok(256)`). -/
theorem C3_palette_size (r : Nat) :
    (isOk (NcDirect.palette_size r) = false ↔ r = 1) ∧
    (r ≠ 1 → NcDirect.palette_size r = Except.ok r) := by
  constructor
  · constructor
    · intro h
      by_contra hne
      simp [NcDirect.palette_size, hne, isOk] at h
    · intro h
      simp [NcDirect.palette_size, h, isOk]
  · intro h
    simp [NcDirect.palette_size, h]

/-- Witness for C3 at raw 256. -/
theorem C3_palette_size_witness :
    (256 ≠ 1) ∧ NcDirect.palette_size 256 = Except.ok 256 :=
  ⟨by decide, (C3_palette_size 256).2 (by decide)⟩

/-- C4: `NcDirect::check_pixel_support` partitions the raw results into exactly
three outcomes: 0 yields `Ok(false)`, 1 yields `Ok(true)`, and every other raw
value yields an error; no raw value reaches more than one outcome. -/
theorem C4_check_pixel_support (r : Int) :
    (r = 0 → NcDirect.check_pixel_support r = Except.ok false) ∧
    (r = 1 → NcDirect.check_pixel_support r = Except.ok true) ∧
    (r ≠ 0 → r ≠ 1 → isOk (NcDirect.check_pixel_support r) = false) ∧
    (NcDirect.check_pixel_support r = Except.ok false → r = 0) ∧
    (NcDirect.check_pixel_support r = Except.ok true → r = 1) := by
  refine ⟨?_, ?_, ?_, ?_, ?_⟩
  · intro h; simp [NcDirect.check_pixel_support, h]
  · intro h; simp [NcDirect.check_pixel_support, h]
  · intro h0 h1; simp [NcDirect.check_pixel_support, h0, h1, isOk]
  · intro h
    by_contra h0
    by_cases h1 : r = 1 <;> simp [NcDirect.check_pixel_support, h0, h1] at h
  · intro h
    by_contra h1
    by_cases h0 : r = 0 <;> simp [NcDirect.check_pixel_support, h0, h1] at h

/-- Witness for C4 at raws 0, 1 and -1. -/
theorem C4_check_pixel_support_witness :
    NcDirect.check_pixel_support 0 = Except.ok false ∧
    NcDirect.check_pixel_support 1 = Except.ok true ∧
    isOk (NcDirect.check_pixel_support (-1)) = false :=
  ⟨(C4_check_pixel_support 0).1 rfl,
   (C4_check_pixel_support 1).2.1 rfl,
   (C4_check_pixel_support (-1)).2.2.1 (by decide) (by decide)⟩

/-- C10: `NcDirect::getc` errors exactly when the raw `u32` reinterpreted as
`i32` equals `NCRESULT_ERR` (-1), i.e. exactly on raw 4294967295; every other
raw value is returned unchanged as the character's code point, with no check
that it is a valid Unicode scalar value (raw 0xD800, a surrogate, is returned
as a success). -/
theorem C10_getc (raw : Nat) (hraw : raw < 2 ^ 32) :
    (isOk (NcDirect.getc raw) = false ↔ u32_as_i32 raw = NCRESULT_ERR) ∧
    (u32_as_i32 raw = NCRESULT_ERR ↔ raw = 4294967295) ∧
    (raw ≠ 4294967295 → NcDirect.getc raw = Except.ok raw) ∧
    NcDirect.getc 0xD800 = Except.ok 0xD800 ∧
    isUnicodeScalar 0xD800 = false := by
  have hiff : u32_as_i32 raw = NCRESULT_ERR ↔ raw = 4294967295 := by
    unfold u32_as_i32 NCRESULT_ERR
    by_cases h : raw < 2 ^ 31 <;> simp [h] <;> omega
  refine ⟨?_, hiff, ?_, ?_, ?_⟩
  · constructor
    · intro h
      by_contra hne
      simp [NcDirect.getc, hne, isOk] at h
    · intro h
      simp [NcDirect.getc, h, isOk]
  · intro h
    have : ¬ u32_as_i32 raw = NCRESULT_ERR := fun hc => h (hiff.mp hc)
    simp [NcDirect.getc, this]
  · have : ¬ u32_as_i32 0xD800 = NCRESULT_ERR := by decide
    simp [NcDirect.getc, this]
  · decide

/-- Witness for C10 at raw 65. -/
theorem C10_getc_witness :
    (65 < 2 ^ 32 ∧ 65 ≠ 4294967295) ∧ NcDirect.getc 65 = Except.ok 65 :=
  ⟨by decide, (C10_getc 65 (by decide)).2.2.1 (by decide)⟩

/-- `NcDirect::stop`, as a function of the raw native result of
`ncdirect_stop`. -/
def NcDirect.stop (res : Int) : NcResult Unit :=
  errorMap res "NcDirect.stop()"

/-- `NcDirect::clear`, as a function of the raw native result of
`ncdirect_clear`. -/
def NcDirect.clear (res : Int) : NcResult Unit :=
  errorMap res "NcDirect.clear()"

/-- `NcPlane::destroy`, as a function of the raw native result of
`ncplane_destroy`. -/
def NcPlane.destroy (res : Int) : NcResult Unit :=
  errorMap res "NcPlane.destroy()"

/-- `NcPlane::render`, as a function of the raw native result of
`ncpile_render`. -/
def NcPlane.render (res : Int) : NcResult Unit :=
  errorMap res "NcPlane.render()"

/-- `NcPlane::rasterize`, as a function of the raw native result of
`ncpile_rasterize`. -/
def NcPlane.rasterize (res : Int) : NcResult Unit :=
  errorMap res "NcPlane.rasterize()"

/-- The result mapping of `NcPlane::mergedown_simple`, as a function of the
raw native result of `ncplane_mergedown_simple`. -/
def NcPlane.mergedown_simple_map (res : Int) : NcResult Unit :=
  errorMap res "NcPlane.mergedown_simple(NcPlane)"

/-- The result mapping of `NcPlane::reparent`, as a function of the raw
native pointer result of `ncplane_reparent`. -/
def NcPlane.reparent_map {α : Type} (res : Option α) : NcResult α :=
  errorRefMut res "NcPlane.reparent(NcPlane)"

/-- Outcome of a binding method obtained by dereferencing a raw native pointer
without a null check (`&mut *ptr`): a plain value, or undefined behavior when
the pointer is null. There is no error constructor: the method's return type
carries no error channel. -/
inductive Deref (α : Type) where
  | val (a : α)
  | nullDeref
deriving DecidableEq, Repr

/-- `NcPlane::dup`: the raw pointer returned by `ncplane_dup` is dereferenced
without a null check and returned as `&mut NcPlane`, not as an `NcResult`. -/
def NcPlane.dup {α : Type} (res : Option α) : Deref α :=
  match res with
  | some p => Deref.val p
  | none => Deref.nullDeref

/-- `NcPlane::top`: the raw pointer returned by `ncpile_top` is dereferenced
without a null check and returned as `&mut NcPlane`, not as an `NcResult`. -/
def NcPlane.top {α : Type} (res : Option α) : Deref α :=
  match res with
  | some p => Deref.val p
  | none => Deref.nullDeref

/-- `NcPlane::bottom`: the raw pointer returned by `ncpile_bottom` is
dereferenced without a null check and returned as `&mut NcPlane`, not as an
`NcResult`. -/
def NcPlane.bottom {α : Type} (res : Option α) : Deref α :=
  match res with
  | some p => Deref.val p
  | none => Deref.nullDeref

/-- Observable outcome of a binding method: a success value or a typed error. -/
inductive Outcome (α : Type) where
  | success (a : α)
  | failure (e : NcError)
deriving DecidableEq, Repr

/-- Whether an outcome is an error result. -/
def Outcome.isFailure {α : Type} : Outcome α → Bool
  | Outcome.success _ => false
  | Outcome.failure _ => true

/-- `NcDirect::getc_nblock`, as a function of the raw character produced by
the native call: the raw value is returned directly as a `char`; the method's
return type is `char`, not `NcResult`, so every raw value (the sentinel
included) is a success value. -/
def NcDirect.getc_nblock (raw : Nat) : Outcome Nat :=
  Outcome.success raw

/-- `NcDirect::getc_blocking`, as a function of the raw character produced by
the native call: the raw value is returned directly as a `char`; the method's
return type is `char`, not `NcResult`, so every raw value (the sentinel
included) is a success value. -/
def NcDirect.getc_blocking (raw : Nat) : Outcome Nat :=
  Outcome.success raw

/-- C1 counterexample: at the sentinel failure code (-1 as u32, i.e. raw
4294967295) `NcDirect::getc_nblock` returns a success value and not an error
result, and at a null native pointer `NcPlane::dup` yields undefined behavior
rather than an error result — refuting the claim that every wrapped native
call returning a sentinel is surfaced as an error. -/
theorem C1_counterexample :
    u32_as_i32 4294967295 = NCRESULT_ERR ∧
    NcDirect.getc_nblock 4294967295 = Outcome.success 4294967295 ∧
    (NcDirect.getc_nblock 4294967295).isFailure = false ∧
    (NcDirect.getc_blocking 4294967295).isFailure = false ∧
    NcPlane.dup (none : Option Unit) = Deref.nullDeref ∧
    NcPlane.top (none : Option Unit) = Deref.nullDeref ∧
    NcPlane.bottom (none : Option Unit) = Deref.nullDeref := by
  refine ⟨by decide, rfl, rfl, rfl, rfl, rfl, rfl⟩

/-- C1 amended: every modelled binding method whose return type is `NcResult`
maps its sentinel failure codes (negative raw integers, a raw palette size of
1, a raw `getc` value reinterpreting to -1, a null pointer) to an error result;
but `NcPlane::dup`/`top`/`bottom` dereference the raw pointer with no null
check (null is undefined behavior, not an error) and
`NcDirect::getc_nblock`/`getc_blocking` return the raw character with no error
mapping at all. -/
theorem C1_sentinel_mapping (r : Int) (raw : Nat) (hr : r < 0) :
    isOk (NcDirect.stop r) = false ∧
    isOk (NcDirect.clear r) = false ∧
    isOk (NcPlane.destroy r) = false ∧
    isOk (NcPlane.render r) = false ∧
    isOk (NcPlane.rasterize r) = false ∧
    isOk (NcPlane.mergedown_simple_map r) = false ∧
    isOk (NcDirect.palette_size 1) = false ∧
    (u32_as_i32 raw = NCRESULT_ERR → isOk (NcDirect.getc raw) = false) ∧
    (r ≠ 0 ∧ r ≠ 1 → isOk (NcDirect.check_pixel_support r) = false) ∧
    isOk (NcPlane.reparent_map (none : Option Unit)) = false ∧
    NcPlane.dup (none : Option Unit) = Deref.nullDeref ∧
    (NcDirect.getc_nblock raw).isFailure = false ∧
    (NcDirect.getc_blocking raw).isFailure = false := by
  have hneg : ¬ (0 : Int) ≤ r := by omega
  refine ⟨?_, ?_, ?_, ?_, ?_, ?_, ?_, ?_, ?_, ?_, rfl, rfl, rfl⟩
  · simp [NcDirect.stop, errorMap, hneg, isOk]
  · simp [NcDirect.clear, errorMap, hneg, isOk]
  · simp [NcPlane.destroy, errorMap, hneg, isOk]
  · simp [NcPlane.render, errorMap, hneg, isOk]
  · simp [NcPlane.rasterize, errorMap, hneg, isOk]
  · simp [NcPlane.mergedown_simple_map, errorMap, hneg, isOk]
  · simp [NcDirect.palette_size, isOk]
  · intro h
    simp [NcDirect.getc, h, isOk]
  · intro h
    simp [NcDirect.check_pixel_support, h.1, h.2, isOk]
  · simp [NcPlane.reparent_map, errorRefMut, isOk]

/-- Witness for the amended C1 at raw result -1 / raw character 4294967295. -/
theorem C1_sentinel_mapping_witness :
    ((-1 : Int) < 0) ∧ isOk (NcDirect.stop (-1)) = false :=
  ⟨by decide, (C1_sentinel_mapping (-1) 4294967295 (by decide)).1⟩

/-- How a Rust method receives its `self` handle: by shared reference, by
mutable reference, or by value (consuming the handle). -/
inductive SelfMode where
  | byRef
  | byMutRef
  | byValue
deriving DecidableEq, Repr

/-- The receiver of `NcDirect::stop`: `pub fn stop(&mut self) -> NcResult<()>`
takes the handle by mutable reference. -/
def NcDirect.stop_selfMode : SelfMode :=
  SelfMode.byMutRef

/-- The receiver of `NcPlane::destroy`:
`pub fn destroy(&mut self) -> NcResult<()>` takes the handle by mutable
reference. -/
def NcPlane.destroy_selfMode : SelfMode :=
  SelfMode.byMutRef

/-- Modelled from the spec: Rust's ownership rules as they bear on handle
reuse — only a receiver taken by value moves the handle out of the caller;
a `&mut self` or `&self` receiver returns the handle to the caller still
usable after the call. -/
def SelfMode.consumesHandle : SelfMode → Bool
  | SelfMode.byValue => true
  | SelfMode.byMutRef => false
  | SelfMode.byRef => false

/-- Whether a straight-line caller invoking the method `n` times in sequence
on the same handle passes Rust's borrow checking: always for at most one
call, and for more calls only when the receiver does not consume the handle. -/
def callsTypecheck (m : SelfMode) (n : Nat) : Bool :=
  decide (n ≤ 1) || !m.consumesHandle

/-- C2 counterexample: a program calling `NcPlane::destroy` twice (or
`NcDirect::stop` twice) on the same handle typechecks, because both methods
take `&mut self` rather than consuming `self` — refuting the claim that the
binding's ownership types make double-destroy and use-after-destroy
impossible. -/
theorem C2_counterexample :
    callsTypecheck NcPlane.destroy_selfMode 2 = true ∧
    callsTypecheck NcDirect.stop_selfMode 2 = true ∧
    NcPlane.destroy_selfMode ≠ SelfMode.byValue ∧
    NcDirect.stop_selfMode ≠ SelfMode.byValue := by
  refine ⟨rfl, rfl, by decide, by decide⟩

/-- C2 amended: `NcDirect::stop` and `NcPlane::destroy` take the handle by
`&mut self`, so the handle remains usable after the call and the type system
accepts any number of further `stop`/`destroy` calls on it: the binding does
not enforce the at-most-once destroy discipline, which is left to the
caller. -/
theorem C2_destroy_not_consuming (n : Nat) :
    callsTypecheck NcPlane.destroy_selfMode n = true ∧
    callsTypecheck NcDirect.stop_selfMode n = true ∧
    NcPlane.destroy_selfMode.consumesHandle = false ∧
    NcDirect.stop_selfMode.consumesHandle = false := by
  refine ⟨?_, ?_, rfl, rfl⟩ <;>
    simp [callsTypecheck, NcPlane.destroy_selfMode, NcDirect.stop_selfMode,
      SelfMode.consumesHandle]

/-- The `NcPlaneOptions` record assembled by the builder constructors: the
position/alignment fields, geometry, the opaque user pointer and name (modelled
as optional values, `none` standing for the null pointer), the optional resize
callback (modelled opaquely), the flag bits and the bottom/right margins. -/
structure NcPlaneOptions where
  y : Int
  x : Int
  rows : Nat
  cols : Nat
  userptr : Option Nat
  name : Option String
  resizecb : Option Nat
  flags : Nat
  margin_b : Int
  margin_r : Int
deriving DecidableEq, Repr

/-- Modelled from the spec: `NcPlaneOptions::HORALIGNED`, the flag bit
selecting horizontally-aligned placement (the constant is defined outside
`src/`); a single flag bit, taken to be the lowest. -/
def NcPlaneOptions.HORALIGNED : Nat := 1

/-- `NcPlaneOptions::with_flags_aligned`: ORs `HORALIGNED` into the caller's
flags unconditionally, stores the alignment in the `x` field, zeroes both
margins, and leaves the user pointer and name null. -/
def NcPlaneOptions.with_flags_aligned (y : Int) (align : Nat) (rows cols : Nat)
    (resizecb : Option Nat) (flags : Nat) : NcPlaneOptions :=
  { y := y
    x := (align : Int)
    rows := rows
    cols := cols
    userptr := none
    name := none
    resizecb := resizecb
    flags := NcPlaneOptions.HORALIGNED ||| flags
    margin_b := 0
    margin_r := 0 }

/-- `NcPlaneOptions::new_aligned`: delegates to `with_flags_aligned` with no
resize callback and the `HORALIGNED` flag. -/
def NcPlaneOptions.new_aligned (y : Int) (align : Nat) (rows cols : Nat) :
    NcPlaneOptions :=
  NcPlaneOptions.with_flags_aligned y align rows cols none
    NcPlaneOptions.HORALIGNED

/-- ORing a mask into a word sets the mask: every bit of `a` is set in
`a ||| b`. -/
theorem lor_and_self (a b : Nat) : (a ||| b) &&& a = a := by
  apply Nat.eq_of_testBit_eq
  intro i
  rw [Nat.testBit_and, Nat.testBit_lor]
  cases a.testBit i <;> cases b.testBit i <;> rfl

/-- C9: for every combination of arguments, `with_flags_aligned` produces an
options record with the `HORALIGNED` bit set in `flags` (OR-ed in even when
the caller's flags omit it), the alignment stored in `x`, both margins zero,
and null user pointer and name. -/
theorem C9_with_flags_aligned (y : Int) (align : Nat) (rows cols : Nat)
    (resizecb : Option Nat) (flags : Nat) :
    ((NcPlaneOptions.with_flags_aligned y align rows cols resizecb flags).flags
        &&& NcPlaneOptions.HORALIGNED) = NcPlaneOptions.HORALIGNED ∧
    (NcPlaneOptions.with_flags_aligned y align rows cols resizecb flags).x
        = (align : Int) ∧
    (NcPlaneOptions.with_flags_aligned y align rows cols resizecb flags).margin_b
        = 0 ∧
    (NcPlaneOptions.with_flags_aligned y align rows cols resizecb flags).margin_r
        = 0 ∧
    (NcPlaneOptions.with_flags_aligned y align rows cols resizecb flags).userptr
        = none ∧
    (NcPlaneOptions.with_flags_aligned y align rows cols resizecb flags).name
        = none :=
  ⟨lor_and_self NcPlaneOptions.HORALIGNED flags, rfl, rfl, rfl, rfl, rfl⟩

/-- The native calls driven by the rendering pipeline methods. -/
inductive NativeCall where
  | pileRender
  | pileRasterize
deriving DecidableEq, Repr

/-- The native results available to one `render2` invocation: the raw result
`ncpile_render` would return, and the raw result `ncpile_rasterize` would
return. -/
structure RenderWorld where
  render_res : Int
  raster_res : Int
deriving DecidableEq, Repr

/-- `NcPlane::render2`, with the native calls it performs recorded in order:
`self.render()?; self.rasterize()?; Ok(())` — the `?` operator returns the
first error immediately, so `ncpile_rasterize` is not invoked when
`ncpile_render` fails. -/
def NcPlane.render2 (w : RenderWorld) : NcResult Unit × List NativeCall :=
  match NcPlane.render w.render_res with
  | Except.error e => (Except.error e, [NativeCall.pileRender])
  | Except.ok _ =>
    match NcPlane.rasterize w.raster_res with
    | Except.error e =>
      (Except.error e, [NativeCall.pileRender, NativeCall.pileRasterize])
    | Except.ok _ =>
      (Except.ok (), [NativeCall.pileRender, NativeCall.pileRasterize])

/-- The claim's sequential composition, stated from the spec's words: call
`render`; only if it succeeded, call `rasterize` and return its result;
otherwise return `render`'s error with `rasterize` unexecuted. -/
def renderThenRasterize (w : RenderWorld) : NcResult Unit × List NativeCall :=
  let r := NcPlane.render w.render_res
  if isOk r then
    (NcPlane.rasterize w.raster_res,
     [NativeCall.pileRender, NativeCall.pileRasterize])
  else
    (r, [NativeCall.pileRender])

/-- C8: `NcPlane::render2` is observationally equal to running `render` and
then, only if it succeeded, `rasterize`: same result and same sequence of
native calls; when `render` fails its error is propagated and `rasterize` is
never invoked; the combined call returns `Ok(())` exactly when both steps
succeed. -/
theorem C8_render2 (w : RenderWorld) :
    NcPlane.render2 w = renderThenRasterize w ∧
    (isOk (NcPlane.render w.render_res) = false →
      (NcPlane.render2 w).1 = NcPlane.render w.render_res ∧
      (NcPlane.render2 w).2 = [NativeCall.pileRender]) ∧
    (isOk ((NcPlane.render2 w).1) = true ↔
      isOk (NcPlane.render w.render_res) = true ∧
      isOk (NcPlane.rasterize w.raster_res) = true) := by
  unfold NcPlane.render2 renderThenRasterize
  rcases hr : NcPlane.render w.render_res with e | u
  · simp [isOk, hr]
  · rcases hs : NcPlane.rasterize w.raster_res with e2 | u2
    · simp [isOk, hr, hs]
    · simp [isOk, hr, hs]

/-- Witness for C8 on a world where `ncpile_render` fails with -1. -/
theorem C8_render2_witness :
    isOk (NcPlane.render (RenderWorld.mk (-1) 0).render_res) = false ∧
    (NcPlane.render2 (RenderWorld.mk (-1) 0)).2 = [NativeCall.pileRender] :=
  ⟨by decide,
   ((C8_render2 (RenderWorld.mk (-1) 0)).2.1 (by decide)).2⟩

/-- Modelled from the spec: the observable state of a plane (the native
`ncplane` object lives outside `src/`): its absolute position in the pile, its
extent, its cursor, and its cell grid (one glyph payload per cell; 0 is the
blank cell produced by erasure). -/
structure Plane where
  abs_y : Int
  abs_x : Int
  rows : Nat
  cols : Nat
  cursor_y : Nat
  cursor_x : Nat
  cells : Nat → Nat → Nat

/-- Resetting one cell of a grid to blank. -/
def clearCell (g : Nat → Nat → Nat) (y x : Nat) : Nat → Nat → Nat :=
  fun y2 x2 => if y2 = y ∧ x2 = x then 0 else g y2 x2

/-- Folding `clearCell` over a coordinate list blanks exactly the listed
cells. -/
theorem foldl_clearCell (l : List (Nat × Nat)) (g : Nat → Nat → Nat)
    (y x : Nat) :
    (l.foldl (fun f yx => clearCell f yx.1 yx.2) g) y x
      = if (y, x) ∈ l then 0 else g y x := by
  induction l generalizing g with
  | nil => simp
  | cons hd tl ih =>
    rw [List.foldl_cons, ih]
    by_cases hm : (y, x) ∈ tl
    · simp [hm]
    · simp [hm, clearCell, Prod.ext_iff]

/-- Modelled from the spec: the indices erased along one axis of extent `d`
from origin `o` by a signed length — `len = 0` clears from the origin to the
far boundary, `len > 0` clears `len` cells forward from (and including) the
origin, `len < 0` clears `|len|` cells backward from (and not including) the
origin; the span is clipped to the plane. -/
def axisRange (o : Nat) (len : Int) (d : Nat) : List Nat :=
  if len = 0 then List.range' o (d - o)
  else if 0 < len then List.range' o (min len.toNat (d - o))
  else List.range' (o - len.natAbs) (min len.natAbs o)

/-- The claim's arithmetic description of the erased span along one axis. -/
def inEraseSpan (o : Nat) (len : Int) (d : Nat) (i : Nat) : Prop :=
  (len = 0 ∧ o ≤ i ∧ i < d) ∨
  (0 < len ∧ o ≤ i ∧ (i : Int) < (o : Int) + len ∧ i < d) ∨
  (len < 0 ∧ (o : Int) + len ≤ (i : Int) ∧ i < o)

/-- The erased axis indices are exactly those of the claim's policy table. -/
theorem mem_axisRange (o : Nat) (len : Int) (d : Nat) (i : Nat) :
    i ∈ axisRange o len d ↔ inEraseSpan o len d i := by
  unfold axisRange inEraseSpan
  rcases lt_trichotomy len 0 with hl | hl | hl
  · rw [if_neg (by omega), if_neg (by omega), List.mem_range'_1]
    constructor
    · intro h
      exact Or.inr (Or.inr ⟨hl, by omega, by omega⟩)
    · rintro (⟨h, -⟩ | ⟨h, -⟩ | ⟨-, h1, h2⟩) <;> omega
  · subst hl
    rw [if_pos rfl, List.mem_range'_1]
    constructor
    · intro h
      exact Or.inl ⟨rfl, by omega, by omega⟩
    · rintro (⟨-, h1, h2⟩ | ⟨h, -⟩ | ⟨h, -⟩) <;> omega
  · rw [if_neg (by omega), if_pos hl, List.mem_range'_1]
    constructor
    · intro h
      exact Or.inr (Or.inl ⟨hl, by omega, by omega, by omega⟩)
    · rintro (⟨h, -⟩ | ⟨-, h1, h2, h3⟩ | ⟨h, -⟩) <;> omega

instance (o : Nat) (len : Int) (d : Nat) (i : Nat) :
    Decidable (inEraseSpan o len d i) := by
  unfold inEraseSpan
  infer_instance

/-- The full coordinate region erased by `erase_region`: the product of the
two axis spans. -/
def eraseRegionCoords (sy sx : Nat) (len_y len_x : Int) (rows cols : Nat) :
    List (Nat × Nat) :=
  (axisRange sy len_y rows).product (axisRange sx len_x cols)

/-- The cell grid after erasing the signed-length region anchored at
`(sy, sx)`. -/
def eraseCells (p : Plane) (sy sx : Nat) (len_y len_x : Int) :
    Nat → Nat → Nat :=
  (eraseRegionCoords sy sx len_y len_x p.rows p.cols).foldl
    (fun f yx => clearCell f yx.1 yx.2) p.cells

/-- Modelled from the spec: `ncplane_erase_region` (the native function lives
outside `src/`), composed with the binding's argument mapping from
`NcPlane::erase_region` — a `None` starting coordinate stands for the cursor
position (the binding passes -1), an out-of-bounds starting coordinate is an
error leaving the plane unchanged, and otherwise the cells of the signed-length
region are reset to blank. -/
def ncplane_erase_region (p : Plane) (beg_y beg_x : Option Nat)
    (len_y len_x : Int) : NcResult Unit × Plane :=
  if beg_y.getD p.cursor_y < p.rows ∧ beg_x.getD p.cursor_x < p.cols then
    (Except.ok (),
     { p with cells :=
        (eraseCells p (beg_y.getD p.cursor_y) (beg_x.getD p.cursor_x)
          len_y len_x) })
  else
    (Except.error (NcError.with_msg NCRESULT_ERR
        "ncplane_erase_region: starting coordinate not in the plane"), p)

/-- C5: for an out-of-bounds starting coordinate (explicit or taken from the
cursor when `None` is passed) `erase_region` errors regardless of the length
values and leaves the plane unchanged — so with all lengths 0 and `None`
starts, the plane is cleared only when the cursor is at a legal in-bounds
position; for an in-bounds start the call succeeds and blanks exactly the
cells given by the signed-length policy: length 0 reaches the far boundary,
positive length covers that many cells forward including the origin, negative
length covers that many cells backward excluding the origin. -/
theorem C5_erase_region (p : Plane) (beg_y beg_x : Option Nat)
    (len_y len_x : Int) :
    (¬ (beg_y.getD p.cursor_y < p.rows ∧ beg_x.getD p.cursor_x < p.cols) →
      (ncplane_erase_region p beg_y beg_x len_y len_x).1
        = Except.error (NcError.with_msg NCRESULT_ERR
            "ncplane_erase_region: starting coordinate not in the plane") ∧
      (ncplane_erase_region p beg_y beg_x len_y len_x).2 = p) ∧
    (beg_y.getD p.cursor_y < p.rows → beg_x.getD p.cursor_x < p.cols →
      (ncplane_erase_region p beg_y beg_x len_y len_x).1 = Except.ok () ∧
      ∀ y x, (ncplane_erase_region p beg_y beg_x len_y len_x).2.cells y x
        = if inEraseSpan (beg_y.getD p.cursor_y) len_y p.rows y ∧
             inEraseSpan (beg_x.getD p.cursor_x) len_x p.cols x
          then 0 else p.cells y x) := by
  constructor
  · intro h
    unfold ncplane_erase_region
    rw [if_neg h]
    exact ⟨rfl, rfl⟩
  · intro hy hx
    have hcells : (ncplane_erase_region p beg_y beg_x len_y len_x).2.cells
        = eraseCells p (beg_y.getD p.cursor_y) (beg_x.getD p.cursor_x)
            len_y len_x := by
      unfold ncplane_erase_region
      rw [if_pos ⟨hy, hx⟩]
    have hok : (ncplane_erase_region p beg_y beg_x len_y len_x).1
        = Except.ok () := by
      unfold ncplane_erase_region
      rw [if_pos ⟨hy, hx⟩]
    refine ⟨hok, ?_⟩
    intro y x
    have hiff : ((y, x) ∈ eraseRegionCoords (beg_y.getD p.cursor_y)
          (beg_x.getD p.cursor_x) len_y len_x p.rows p.cols) ↔
        (inEraseSpan (beg_y.getD p.cursor_y) len_y p.rows y ∧
         inEraseSpan (beg_x.getD p.cursor_x) len_x p.cols x) := by
      rw [eraseRegionCoords, List.pair_mem_product, mem_axisRange, mem_axisRange]
    rw [hcells]
    unfold eraseCells
    rw [foldl_clearCell]
    by_cases hc : inEraseSpan (beg_y.getD p.cursor_y) len_y p.rows y ∧
        inEraseSpan (beg_x.getD p.cursor_x) len_x p.cols x
    · rw [if_pos (hiff.mpr hc), if_pos hc]
    · rw [if_neg (fun hm => hc (hiff.mp hm)), if_neg hc]

/-- A concrete 2 by 2 plane at the pile origin with cursor at (0, 0) and all
cells holding glyph 7. -/
def planeA : Plane :=
  { abs_y := 0, abs_x := 0, rows := 2, cols := 2, cursor_y := 0, cursor_x := 0,
    cells := fun _ _ => 7 }

/-- Witness for C5: on `planeA`, with `None` starts and both lengths 0, the
cursor is in bounds and the call succeeds. -/
theorem C5_erase_region_witness :
    ((none : Option Nat).getD planeA.cursor_y < planeA.rows ∧
     (none : Option Nat).getD planeA.cursor_x < planeA.cols) ∧
    (ncplane_erase_region planeA none none 0 0).1 = Except.ok () :=
  ⟨⟨by decide, by decide⟩,
   ((C5_erase_region planeA none none 0 0).2 (by decide) (by decide)).1⟩

/-- Folding a step function that fixes every accumulator leaves the
accumulator unchanged. -/
theorem foldl_fixed {α β : Type} (step : α → β → α) (l : List β) (a : α)
    (h : ∀ b ∈ l, ∀ x, step x b = x) : l.foldl step a = a := by
  induction l generalizing a with
  | nil => rfl
  | cons hd tl ih =>
    rw [List.foldl_cons, h hd (List.mem_cons_self hd tl)]
    exact ih a fun b hb x => h b (List.mem_cons_of_mem hd hb) x

/-- Modelled from the spec: compositing one source cell over a destination
cell — the source glyph wins unless it is blank. -/
def mergeCell (s d : Nat) : Nat :=
  if s = 0 then d else s

/-- All cell coordinates of a source plane. -/
def srcCoords (src : Plane) : List (Nat × Nat) :=
  (List.range src.rows).product (List.range src.cols)

/-- One step of the merge: composite the source cell at `yx` into the
destination grid when its absolute position falls inside the destination
region, and leave the grid untouched otherwise. -/
def mergeStep (dst src : Plane) (g : Nat → Nat → Nat) (yx : Nat × Nat) :
    Nat → Nat → Nat :=
  if dst.abs_y ≤ src.abs_y + (yx.1 : Int) ∧
     src.abs_y + (yx.1 : Int) < dst.abs_y + (dst.rows : Int) ∧
     dst.abs_x ≤ src.abs_x + (yx.2 : Int) ∧
     src.abs_x + (yx.2 : Int) < dst.abs_x + (dst.cols : Int) then
    fun y2 x2 =>
      if (y2 : Int) = src.abs_y + (yx.1 : Int) - dst.abs_y ∧
         (x2 : Int) = src.abs_x + (yx.2 : Int) - dst.abs_x then
        mergeCell (src.cells yx.1 yx.2) (g y2 x2)
      else g y2 x2
  else g

/-- Modelled from the spec: `ncplane_mergedown_simple` (the native function
lives outside `src/`) merges the entire source onto the entire destination —
every source cell whose absolute position intersects the destination region is
composited into the destination, the source is left unchanged, and a
non-intersecting source is a no-op, not an error. The documented sprixel
precondition (neither plane may carry pixel graphics) is outside this model. -/
def ncplane_mergedown_simple (dst src : Plane) : NcResult Unit × Plane :=
  (Except.ok (),
   { dst with cells := ((srcCoords src).foldl (mergeStep dst src) dst.cells) })

/-- The destination and source regions fail to intersect: they are separated
along the vertical or the horizontal axis. -/
def regionsDisjoint (dst src : Plane) : Prop :=
  dst.abs_y + (dst.rows : Int) ≤ src.abs_y ∨
  src.abs_y + (src.rows : Int) ≤ dst.abs_y ∨
  dst.abs_x + (dst.cols : Int) ≤ src.abs_x ∨
  src.abs_x + (src.cols : Int) ≤ dst.abs_x

instance (dst src : Plane) : Decidable (regionsDisjoint dst src) := by
  unfold regionsDisjoint
  infer_instance

/-- C6: when the destination and source regions do not intersect,
`mergedown_simple` returns success and leaves every cell of the destination
plane unchanged. -/
theorem C6_mergedown_simple (dst src : Plane) (h : regionsDisjoint dst src) :
    ncplane_mergedown_simple dst src = (Except.ok (), dst) := by
  have hfold : (srcCoords src).foldl (mergeStep dst src) dst.cells
      = dst.cells := by
    apply foldl_fixed
    rintro ⟨i, j⟩ hb g
    have hij := List.pair_mem_product.mp hb
    have hi : i < src.rows := List.mem_range.mp hij.1
    have hj : j < src.cols := List.mem_range.mp hij.2
    unfold mergeStep
    apply if_neg
    rintro ⟨c1, c2, c3, c4⟩
    simp only at c1 c2 c3 c4
    rcases h with hd | hd | hd | hd <;> omega
  unfold ncplane_mergedown_simple
  rw [hfold]

/-- A concrete 1 by 1 plane far away from `planeA`, with its one cell holding
glyph 3. -/
def planeFar : Plane :=
  { abs_y := 10, abs_x := 10, rows := 1, cols := 1, cursor_y := 0,
    cursor_x := 0, cells := fun _ _ => 3 }

/-- Witness for C6: `planeA` and `planeFar` are disjoint, and merging the
latter down onto the former succeeds and leaves `planeA` unchanged. -/
theorem C6_mergedown_simple_witness :
    regionsDisjoint planeA planeFar ∧
    ncplane_mergedown_simple planeA planeFar = (Except.ok (), planeA) :=
  ⟨by decide, C6_mergedown_simple planeA planeFar (by decide)⟩

/-- Modelled from the spec: the pile structure maintained by the native
library (outside `src/`) — each plane has an optional binding parent (`none`
marks a pile root), and one plane is the standard plane. -/
structure Pile where
  std : Nat
  parent : Nat → Option Nat

/-- Modelled from the spec: `ncplane_reparent` (the native function lives
outside `src/`) — the standard plane cannot be reparented; reparenting a plane
to itself when it is already a pile root is a no-op; otherwise the plane is
detached (becoming a root when the new parent is itself, and a child of the
new parent otherwise) and its bound children are promoted to its previous
parent. -/
def pile_reparent (F : Pile) (p np : Nat) : NcResult Pile :=
  if p = F.std then
    Except.error (NcError.with_msg NCRESULT_ERR
      "the standard plane cannot be reparented")
  else if np = p ∧ F.parent p = none then
    Except.ok F
  else
    Except.ok
      { F with parent := fun q =>
          if q = p then (if np = p then none else some np)
          else if F.parent q = some p then F.parent p
          else F.parent q }

/-- C7: for a non-standard plane `p`, reparenting `p` to itself is a no-op
(success, pile unchanged) when `p` is already a pile root; otherwise it
succeeds, `p` becomes the root of a new pile, `p`'s bound children are
reparented to `p`'s previous parent, and every other plane's binding is
untouched. -/
theorem C7_reparent_self (F : Pile) (p : Nat) (hstd : p ≠ F.std) :
    (F.parent p = none → pile_reparent F p p = Except.ok F) ∧
    (∀ gp, F.parent p = some gp →
      ∃ F2, pile_reparent F p p = Except.ok F2 ∧
        F2.std = F.std ∧
        F2.parent p = none ∧
        (∀ q, q ≠ p → F.parent q = some p → F2.parent q = some gp) ∧
        (∀ q, q ≠ p → F.parent q ≠ some p → F2.parent q = F.parent q)) := by
  constructor
  · intro hroot
    unfold pile_reparent
    rw [if_neg hstd, if_pos ⟨rfl, hroot⟩]
  · intro gp hgp
    have hcond : ¬ (p = p ∧ F.parent p = none) := by simp [hgp]
    refine ⟨{ F with parent := fun q =>
        if q = p then (if p = p then none else some p)
        else if F.parent q = some p then F.parent p
        else F.parent q }, ?_, rfl, by simp, ?_, ?_⟩
    · unfold pile_reparent
      rw [if_neg hstd, if_neg hcond]
    · intro q hq hqp
      simp [hq, hqp, hgp]
    · intro q hq hqp
      simp [hq, hqp]

/-- A concrete pile: plane 0 is the standard plane, plane 1 is the root of a
separate pile, and plane 2 is bound to plane 1. -/
def pileA : Pile :=
  { std := 0, parent := fun q => if q = 2 then some 1 else none }

/-- Witness for C7: plane 1 of `pileA` is not the standard plane and is
already a pile root, so reparenting it to itself is a no-op that succeeds. -/
theorem C7_reparent_self_witness :
    (1 ≠ pileA.std ∧ pileA.parent 1 = none) ∧
    pile_reparent pileA 1 1 = Except.ok pileA :=
  ⟨⟨by decide, by decide⟩,
   (C7_reparent_self pileA 1 (by decide)).1 (by decide)⟩

end NotcursesSpec
